import Mathlib

/-!
Verification of the PiHoleEasyAdd dashboard (src/app.py) against its
natural-language specification.

The Python source is shallowly embedded: every network interaction is
represented by an explicit outcome value passed to the embedded function,
the wall clock is passed explicitly as a natural number, and the
lock-protected critical sections of the source are modelled as atomic
steps.  Machine-level concerns (Flask routing, JSON wire format) are
abstracted to the option-valued fields the handlers actually read.
-/

namespace PiHole

/-- State of the `SessionManager` object (app.py lines 26-31):
`session_id`, `session_expiry` and `last_error`.  `session_id = none`
models Python `None`; the expiry is an absolute time in abstract units
(`none` models Python `None`). -/
structure SessionState where
  session_id : Option String
  session_expiry : Option Nat
  last_error : Option String
deriving DecidableEq, Repr

/-- Initial state built by `SessionManager.__init__` (lines 27-31). -/
def initState : SessionState := ⟨none, none, none⟩

/-- Result of `response.json()` on the auth response: either it raises
(`parseError`, handled by the generic `except` at line 66) or it parses,
in which case `sid` records the value of `data["session"]["sid"]` when
both keys are present (lines 43-44). -/
inductive JsonResult where
  | parseError
  | parsed (sid : Option String)
deriving DecidableEq, Repr

/-- Outcome of the `requests.post` call inside `SessionManager.login`
(lines 36-40): either the transport raises (`netExc`, caught at line 66)
or a response arrives with a status code, a body parse result and an
optional `Set-Cookie` header value (lines 42, 53). -/
inductive LoginOutcome where
  | netExc (msg : String)
  | resp (status : Nat) (body : JsonResult) (setCookie : Option String)
deriving DecidableEq, Repr

/-- Events recorded by the session-manager embedding: acquiring and
releasing `self.lock`, and performing the login network call. -/
inductive SMEv where
  | acq
  | rel
  | net
deriving DecidableEq, Repr

/-- Characters after the first occurrence of the separator, or `none`
when the (non-empty) separator does not occur: the tail part of Python
`s.split(sep)[1:]` rejoined, used to model `s.split(sep)[1]` below. -/
def afterFirst (sep : List Char) : List Char → Option (List Char)
  | [] => none
  | c :: rest =>
      if sep.isPrefixOf (c :: rest) then some ((c :: rest).drop sep.length)
      else afterFirst sep rest

/-- Characters before the first occurrence of the separator (the whole
list when the separator does not occur): Python `s.split(sep)[0]`. -/
def beforeFirst (sep : List Char) : List Char → List Char
  | [] => []
  | c :: rest =>
      if sep.isPrefixOf (c :: rest) then []
      else c :: beforeFirst sep rest

/-- Cookie extraction of app.py line 56:
`cookies.split("sid=")[1].split(";")[0]`, guarded by
`"sid=" in cookies` (line 55).  Python `s.split("sid=")[1]` is the text
between the first and second occurrences of `"sid="` (to the end when
there is no second occurrence); taking `.split(";")[0]` then truncates
it at the first `";"`. -/
def extractCookieSid (cookies : String) : Option String :=
  match afterFirst "sid=".data cookies.data with
  | none => none
  | some rest =>
      some ⟨beforeFirst ";".data (beforeFirst "sid=".data rest)⟩

/-- Embedding of `SessionManager.login` (app.py lines 33-68).  Returns
the new state, the boolean result, and the trace of lock/network events.
The whole body sits inside `try ... except Exception` (lines 35, 66), so
the embedded function is total: every failure mode ends in the
`last_error`-and-`False` path, never in a propagated exception.
`refreshMin` is `SESSION_REFRESH_MINUTES`; `now` is the value of
`datetime.now()` at line 48/59. -/
def login (s : SessionState) (refreshMin now : Nat) (o : LoginOutcome) :
    SessionState × Bool × List SMEv :=
  match o with
  | .netExc msg =>
      ({ s with last_error := some ("Login error: " ++ msg) }, false, [.net])
  | .resp status body setCookie =>
      let failState : SessionState :=
        { s with last_error := some ("Login failed: " ++ toString status) }
      let successState (sid : String) : SessionState :=
        { session_id := some sid
          session_expiry := some (now + refreshMin)
          last_error := none }
      let cookieFallback : SessionState × Bool × List SMEv :=
        match setCookie with
        | some cookies =>
            match extractCookieSid cookies with
            | some sid => (successState sid, true, [.net, .acq, .rel])
            | none => (failState, false, [.net])
        | none => (failState, false, [.net])
      if status = 200 then
        match body with
        | .parseError =>
            ({ s with last_error := some "Login error: JSON decode failure" },
             false, [.net])
        | .parsed (some sid) => (successState sid, true, [.net, .acq, .rel])
        | .parsed none => cookieFallback
      else
        cookieFallback

/-- Embedding of `SessionManager.invalidate` (app.py lines 85-89):
clears `session_id` and `session_expiry` inside one lock-held region;
`last_error` is untouched. -/
def invalidate (s : SessionState) : SessionState :=
  { s with session_id := none, session_expiry := none }

/-- Python truthiness of `self.session_id` (line 74/79): an optional
string is truthy exactly when it is present and non-empty. -/
def truthyStr : Option String → Bool
  | none => false
  | some s => !(s = "")

/-- Condition of lines 74 and 79:
`not self.session_id or (self.session_expiry and now >= self.session_expiry)`.
A `datetime` object is always truthy, so the second conjunct fires
exactly when an expiry is stored and `now` has reached it. -/
def needsLogin (s : SessionState) (now : Nat) : Bool :=
  !truthyStr s.session_id ||
    (match s.session_expiry with
     | none => false
     | some e => decide (now ≥ e))

/-- Embedding of `SessionManager.get_session_id` (app.py lines 70-83).
The first `with self.lock` block (lines 72-76) evaluates the staleness
check and discards it; the re-check at line 79 runs without the lock and
decides whether `login` is called; the returned id is read in a final
lock-held region (lines 82-83).  `now1` and `now2` are the two
`datetime.now()` calls at lines 74 and 79 (`now2` is also passed to
`login` for the expiry computation). -/
def get_session_id (s : SessionState) (refreshMin now1 now2 : Nat)
    (o : LoginOutcome) : SessionState × Option String × List SMEv :=
  let _checked := needsLogin s now1
  let (s2, loginEvs) :=
    if needsLogin s now2 then
      let (s3, _ok, evs) := login s refreshMin now2 o
      (s3, evs)
    else
      (s, ([] : List SMEv))
  (s2, s2.session_id, [SMEv.acq, SMEv.rel] ++ loginEvs ++ [SMEv.acq, SMEv.rel])

/-- Number of login network calls recorded in a trace. -/
def netCount (evs : List SMEv) : Nat := evs.count SMEv.net

/-- Checks that every network event in the trace happens while the lock
depth (acquisitions minus releases so far) is zero, i.e. without holding
the store lock.  `d` is the current depth. -/
def netsUnlocked : List SMEv → Nat → Bool
  | [], _ => true
  | .acq :: r, d => netsUnlocked r (d + 1)
  | .rel :: r, d => netsUnlocked r (d - 1)
  | .net :: r, d => (d = 0) && netsUnlocked r d

/-! ## Interleaving model of the Credential Store

Every write the source performs to the pair (`session_id`,
`session_expiry`) happens inside a single `with self.lock` region that
assigns both fields together: the JSON success path (lines 45-49), the
cookie success path (lines 57-60) and `invalidate` (lines 87-89).  The
failure paths (lines 63, 67) write only `last_error` and touch neither
field.  Because the lock serialises these regions against each other
and against any reader that itself holds the lock, an arbitrary
interleaving of concurrent `login` and `invalidate` calls, as observed
by lock-holding code, is a sequence of these atomic store operations.
To speak about which operation computed a stored value, each successful
login carries an operation id and the store records, for each field,
the id of the login that wrote it.

The source also contains one reader that does NOT hold the lock: the
re-check at line 79 (`if not self.session_id or (self.session_expiry
and datetime.now() >= self.session_expiry)`), run deliberately outside
the lock (comment at lines 75-78).  That reader loads `session_id` and
`session_expiry` in two separate steps which the lock does not
serialise against the writers, so any number of complete store
operations can run between its two loads.  `unlockedRead` models it. -/

/-- One atomic lock-protected store operation, as found in the source. -/
inductive StoreOp where
  | loginWrite (opId : Nat)
  | invalidateClear
  | errorWrite
deriving DecidableEq, Repr

/-- Provenance-tagged store: `tokenSrc` is the id of the login whose
token is currently stored (`none` after a clear or before the first
login), and `expirySrc` the id of the login that computed the stored
expiry. -/
structure TaggedStore where
  tokenSrc : Option Nat
  expirySrc : Option Nat
deriving DecidableEq, Repr

/-- Effect of one atomic store operation on the tagged store.  A
successful login with id `i` writes both fields in its single locked
region (lines 45-49 / 57-60); `invalidate` clears both in its locked
region (lines 87-89); error writes touch neither field. -/
def applyStoreOp (st : TaggedStore) : StoreOp → TaggedStore
  | .loginWrite i => ⟨some i, some i⟩
  | .invalidateClear => ⟨none, none⟩
  | .errorWrite => st

/-- Runs an arbitrary interleaving (any finite sequence of atomic store
operations) from the empty initial store.  The resulting states are
exactly the store states at lock-region boundaries: the states a reader
that holds the lock can observe, since the lock admits such a reader
only between complete writer regions.  The unlocked reader of line 79
is modelled separately by `unlockedRead`. -/
def runStoreOps (ops : List StoreOp) : TaggedStore :=
  ops.foldl applyStoreOp ⟨none, none⟩

/-- Observation made by the unlocked re-check at line 79: the reader
loads `session_id` after the interleaving prefix `pre` has run, and —
holding no lock — loads `session_expiry` only after the further store
operations `mid` have run concurrently in between. -/
def unlockedRead (pre mid : List StoreOp) : Option Nat × Option Nat :=
  ((runStoreOps pre).tokenSrc, (runStoreOps (pre ++ mid)).expirySrc)

/-! ## Resilient request executor -/

/-- Outcome of the `requests.request` call of one attempt inside
`make_api_request` (lines 141-147): either a response with a status
code, or a raised transport exception (caught at line 161). -/
inductive AttemptOutcome where
  | resp (status : Nat)
  | exc (msg : String)
deriving DecidableEq, Repr

/-- Observable events of `make_api_request`: building headers via
`get_headers()` (line 135), `session_manager.invalidate()` (line 155),
`session_manager.login()` (line 156), and `time.sleep(1)` (line 164). -/
inductive ExecEv where
  | getHeaders
  | invalidateCall
  | loginCall
  | sleepOne
deriving DecidableEq, Repr

/-- Result of `make_api_request`: a returned response status, a
re-raised exception, or the `return None` after the loop (line 168). -/
inductive ExecResult where
  | ok (status : Nat)
  | raised (msg : String)
  | noResponse
deriving DecidableEq, Repr

/-- Embedding of the attempt loop of `make_api_request` (lines 133-166).
`out attempt` is the outcome of the network call of that attempt; `fuel`
counts the remaining loop iterations (`range(max_retries)`), and
`attempt` the current index.  On a 401 on a non-final attempt the
session is invalidated and re-logged-in and the loop continues (lines
153-157); any other response is returned (line 159); an exception on a
non-final attempt sleeps one unit and continues (lines 163-165), and on
the final attempt is re-raised (line 166). -/
def requestAttempts (out : Nat → AttemptOutcome) (maxRetries : Nat) :
    Nat → Nat → ExecResult × List ExecEv
  | 0, _ => (.noResponse, [])
  | fuel + 1, attempt =>
      match out attempt with
      | .resp s =>
          if s = 401 ∧ attempt < maxRetries - 1 then
            let (r, evs) := requestAttempts out maxRetries fuel (attempt + 1)
            (r, [ExecEv.getHeaders, ExecEv.invalidateCall, ExecEv.loginCall] ++ evs)
          else
            (.ok s, [ExecEv.getHeaders])
      | .exc m =>
          if attempt < maxRetries - 1 then
            let (r, evs) := requestAttempts out maxRetries fuel (attempt + 1)
            (r, [ExecEv.getHeaders, ExecEv.sleepOne] ++ evs)
          else
            (.raised m, [ExecEv.getHeaders])

/-- Embedding of `make_api_request` (lines 119-168) with its hard-coded
`max_retries = 2` (line 131). -/
def make_api_request (out : Nat → AttemptOutcome) : ExecResult × List ExecEv :=
  requestAttempts out 2 2 0

/-! ## Blocked-query aggregation -/

/-- One query record from the upstream response.  `domain` is `none`
when the `"domain"` key is absent (read with `query.get("domain", "")`
at line 215) and `timestamp` is `none` when the `"timestamp"` key is
absent (read with `query.get("timestamp", 0)` at line 216).  The
`status` classification is carried by the record but never read by the
aggregation. -/
structure QueryRecord where
  domain : Option String
  status : Option String
  timestamp : Option Nat
deriving DecidableEq, Repr

/-- One entry of the aggregated output (lines 220-224). -/
structure BlockedEntry where
  domain : String
  count : Nat
  latest_timestamp : Nat
deriving DecidableEq, Repr

/-- Lines 226-228: increment the count and update the latest timestamp
when the new one is strictly greater. -/
def bumpEntry (e : BlockedEntry) (ts : Nat) : BlockedEntry :=
  { e with
    count := e.count + 1
    latest_timestamp :=
      if ts > e.latest_timestamp then ts else e.latest_timestamp }

/-- Body of the `for query in data["queries"]` loop (lines 214-228),
acting on the `domain_counts` dict modelled as an insertion-ordered
association list.  An empty or missing domain is skipped (line 218); a
fresh domain is inserted with count 0 and the current timestamp (lines
219-224) and then bumped; an existing domain is bumped in place. -/
def processQuery (acc : List BlockedEntry) (q : QueryRecord) :
    List BlockedEntry :=
  let d := q.domain.getD ""
  let ts := q.timestamp.getD 0
  if d = "" then acc
  else if acc.any (fun e => e.domain = d) then
    acc.map (fun e => if e.domain = d then bumpEntry e ts else e)
  else
    acc ++ [bumpEntry ⟨d, 0, ts⟩ ts]

/-- Comparison used to model line 231-235:
`sorted(domain_counts.values(), key=lambda x: x["latest_timestamp"], reverse=True)`.
Python `sorted` is stable also with `reverse=True`, which matches a
stable merge sort under the reversed comparison. -/
def laterFirst (a b : BlockedEntry) : Bool :=
  b.latest_timestamp ≤ a.latest_timestamp

/-- Embedding of the aggregation of `get_blocked_queries` (lines
208-235): fold the records through the dict, sort its values by latest
timestamp descending, truncate to `MAX_ENTRIES` (`maxEntries` here). -/
def get_blocked_queries (queries : List QueryRecord) (maxEntries : Nat) :
    List BlockedEntry :=
  (((queries.foldl processQuery []).mergeSort laterFirst).take maxEntries)

/-! ## Whitelist endpoint -/

/-- Result of the input-validation prefix of `add_to_whitelist` (lines
266-281): `serverError` when `request.get_json()` yields `None` and the
`data.get` attribute access raises (caught at line 312, returning 500);
`validationError` for the 400 "Domain is required" response (lines
270-274); `upstreamCall domain` when control reaches the
`make_api_request` call (line 277). -/
inductive WhitelistStep where
  | serverError
  | validationError
  | upstreamCall (domain : String)
deriving DecidableEq, Repr

/-- Python `str.strip()`: remove leading and trailing whitespace.
Modelled directly on the character list so that it is
kernel-computable. -/
def pyStrip (s : String) : String :=
  ⟨((s.data.dropWhile Char.isWhitespace).reverse.dropWhile
      Char.isWhitespace).reverse⟩

/-- Embedding of the validation prefix of `add_to_whitelist` (lines
263-281).  `body` is `none` when the request carries no JSON object, and
`some f` with `f` the optional `"domain"` field otherwise
(`data.get("domain", "")` at line 268, then `.strip()`).  The returned
Bool records whether the upstream API is called, and the session state
is threaded through to show the prefix never touches it. -/
def add_to_whitelist (body : Option (Option String)) (s : SessionState) :
    WhitelistStep × Bool × SessionState :=
  match body with
  | none => (.serverError, false, s)
  | some domainField =>
      let domain := pyStrip (domainField.getD "")
      if domain = "" then (.validationError, false, s)
      else (.upstreamCall domain, true, s)

/-! ## Concrete scenarios used as witnesses -/

/-- Attempt outcomes for the 401-then-200 scenario. -/
def outcome401then200 : Nat → AttemptOutcome
  | 0 => .resp 401
  | _ => .resp 200

/-- Attempt outcomes for the double-connection-failure scenario. -/
def outcomeTwoFailures : Nat → AttemptOutcome
  | 0 => .exc "connection refused"
  | _ => .exc "connection timed out"

/-- Session state with a token whose expiry (time 5) is already in the
past at time 10. -/
def staleState : SessionState := ⟨some "abc", some 5, none⟩

/-- Normalisation mirroring what the aggregation loop does to its
input: drop records with a missing or empty domain, and default a
missing timestamp to 0. -/
def normalizeQueries (qs : List QueryRecord) : List QueryRecord :=
  (qs.filter (fun q => !(q.domain.getD "" = ""))).map
    (fun q => { q with timestamp := some (q.timestamp.getD 0) })

/-- Input records of the aggregation example of the spec. -/
def exampleQueries : List QueryRecord :=
  [⟨some "a.com", some "GRAVITY", some 100⟩,
   ⟨some "a.com", some "GRAVITY", some 200⟩,
   ⟨some "b.com", some "DENYLIST", some 150⟩]

/-! ## Theorems -/

/-- Helper: the pairing invariant is preserved by any foldl over atomic
store operations, starting from any store whose fields agree. -/
theorem foldl_applyStoreOp_pairing (ops : List StoreOp) (st : TaggedStore)
    (h : st.tokenSrc = st.expirySrc) :
    (ops.foldl applyStoreOp st).tokenSrc = (ops.foldl applyStoreOp st).expirySrc := by
  induction ops generalizing st with
  | nil => exact h
  | cons op rest ih =>
      cases op with
      | loginWrite i => exact ih _ rfl
      | invalidateClear => exact ih _ rfl
      | errorWrite => exact ih _ h

/-- C1 counterexample: the claim that NO reader ever observes a token
paired with an expiry computed by a different operation fails at the
unlocked re-check of line 79.  Concretely: login 0 completes its locked
write, the line-79 reader loads `session_id` (observing the token of
login 0), then a concurrent login 1 completes its locked write, and the
reader loads `session_expiry` — observing the token written by login 0
paired with the expiry computed by login 1. -/
theorem C1_unlocked_mismatch_counterexample :
    unlockedRead [StoreOp.loginWrite 0] [StoreOp.loginWrite 1] =
      (some 0, some 1) ∧
    (some 0 : Option Nat) ≠ some 1 := by
  decide

/-- C1 (amended): for every interleaving of the atomic lock-protected
store operations performed by login and invalidate, the store state at
every lock-region boundary holds a token and an expiry originating from
the same single operation — so a read performed while holding the lock
(lines 72-74, 82-83) never observes a mismatched pair.  The unlocked
re-check at line 79, however, can observe the token of one login paired
with the expiry of a different login, as the counterexample shows. -/
theorem C1_locked_read_pairing (ops : List StoreOp) :
    (runStoreOps ops).tokenSrc = (runStoreOps ops).expirySrc :=
  foldl_applyStoreOp_pairing ops ⟨none, none⟩ rfl

/-- C2: with the hard-coded maximum of 2 attempts, a 401 on the first
attempt followed by a 200 on the second performs exactly one
invalidate-then-login cycle between the attempts and returns the 200
response to the caller. -/
theorem C2_retry_401_then_200 (out : Nat → AttemptOutcome)
    (h0 : out 0 = .resp 401) (h1 : out 1 = .resp 200) :
    make_api_request out =
      (.ok 200,
       [ExecEv.getHeaders, ExecEv.invalidateCall, ExecEv.loginCall,
        ExecEv.getHeaders]) := by
  simp [make_api_request, requestAttempts, h0, h1]

/-- Witness for C2 at the concrete outcome sequence [401, 200]. -/
theorem C2_retry_401_then_200_witness :
    make_api_request outcome401then200 =
      (.ok 200,
       [ExecEv.getHeaders, ExecEv.invalidateCall, ExecEv.loginCall,
        ExecEv.getHeaders]) :=
  C2_retry_401_then_200 outcome401then200 rfl rfl

/-- C3: with the hard-coded maximum of 2 attempts, transport failures on
both attempts produce exactly one fixed backoff sleep of one time unit
between the attempts, and the second failure is re-raised to the
caller. -/
theorem C3_transport_retry_then_raise (out : Nat → AttemptOutcome)
    (m0 m1 : String) (h0 : out 0 = .exc m0) (h1 : out 1 = .exc m1) :
    make_api_request out =
      (.raised m1, [ExecEv.getHeaders, ExecEv.sleepOne, ExecEv.getHeaders]) := by
  simp [make_api_request, requestAttempts, h0, h1]

/-- Witness for C3 at two concrete connection failures. -/
theorem C3_transport_retry_then_raise_witness :
    make_api_request outcomeTwoFailures =
      (.raised "connection timed out",
       [ExecEv.getHeaders, ExecEv.sleepOne, ExecEv.getHeaders]) :=
  C3_transport_retry_then_raise outcomeTwoFailures
    "connection refused" "connection timed out" rfl rfl

/-- Helper: the event trace of a login is either a bare network call
(failure paths) or a network call followed by one lock-held write
region (success paths); the network call always comes first, outside
any lock. -/
theorem login_events_shape (s : SessionState) (refreshMin now : Nat)
    (o : LoginOutcome) :
    (login s refreshMin now o).2.2 = [SMEv.net] ∨
    (login s refreshMin now o).2.2 = [SMEv.net, SMEv.acq, SMEv.rel] := by
  rcases o with msg | ⟨status, body, sc⟩
  · exact Or.inl rfl
  · by_cases hst : status = 200
    · cases body with
      | parseError => simp [login, hst]
      | parsed sid? =>
          cases sid? with
          | some sid => simp [login, hst]
          | none =>
              cases sc with
              | none => simp [login, hst]
              | some cookies =>
                  cases hex : extractCookieSid cookies with
                  | none => simp [login, hst, hex]
                  | some sid => simp [login, hst, hex]
    · cases sc with
      | none => simp [login, hst]
      | some cookies =>
          cases hex : extractCookieSid cookies with
          | none => simp [login, hst, hex]
          | some sid => simp [login, hst, hex]

/-- C4: when the stored token is absent or the stored expiry has
passed, a single call to get_session_id performs the login exactly once
(one network call) before returning, and the network call is made
without holding the store lock. -/
theorem C4_stale_session_single_login (s : SessionState)
    (refreshMin now1 now2 : Nat) (o : LoginOutcome)
    (h : s.session_id = none ∨ ∃ e, s.session_expiry = some e ∧ e ≤ now2) :
    netCount (get_session_id s refreshMin now1 now2 o).2.2 = 1 ∧
    netsUnlocked (get_session_id s refreshMin now1 now2 o).2.2 0 = true := by
  have hneed : needsLogin s now2 = true := by
    rcases h with h | ⟨e, he, hle⟩
    · simp [needsLogin, truthyStr, h]
    · simp [needsLogin, he]
      omega
  rcases hl : login s refreshMin now2 o with ⟨s3, ok3, evs3⟩
  have hshape := login_events_shape s refreshMin now2 o
  rw [hl] at hshape
  simp only at hshape
  have hev : (get_session_id s refreshMin now1 now2 o).2.2
      = [SMEv.acq, SMEv.rel] ++ evs3 ++ [SMEv.acq, SMEv.rel] := by
    simp only [get_session_id, hneed, if_true, hl]
  rw [hev]
  rcases hshape with h3 | h3 <;> subst h3 <;> exact ⟨by decide, by decide⟩

/-- Witness for C4: a session whose expiry 5 has passed at time 10,
with a login that succeeds through the JSON body. -/
theorem C4_stale_session_single_login_witness :
    netCount (get_session_id staleState 30 10 10
      (.resp 200 (.parsed (some "tok")) none)).2.2 = 1 ∧
    netsUnlocked (get_session_id staleState 30 10 10
      (.resp 200 (.parsed (some "tok")) none)).2.2 0 = true :=
  C4_stale_session_single_login staleState 30 10 10
    (.resp 200 (.parsed (some "tok")) none)
    (Or.inr ⟨5, rfl, by decide⟩)

/-- C5 counterexample: a login response with status 401 and header
cookie `sid=deleted; Path=/` makes the authenticator store the literal
sentinel value "deleted" as the session token and report success — the
code performs no emptiness or sentinel check on the cookie-extracted
value, contradicting the claim. -/
theorem C5_sentinel_accepted_counterexample :
    (login initState 30 0
      (.resp 401 (.parsed none) (some "sid=deleted; Path=/"))).1.session_id
        = some "deleted" ∧
    (login initState 30 0
      (.resp 401 (.parsed none) (some "sid=deleted; Path=/"))).2.1 = true := by
  decide

/-- C5 (amended): on the cookie fallback path, whatever value the
extraction yields — including the empty string and the literal
"deleted" sentinel — is stored unconditionally as the session token and
the login reports success; no sentinel rejection is performed. -/
theorem C5_cookie_value_stored_unconditionally (s : SessionState)
    (refreshMin now status : Nat) (body : JsonResult) (cookies v : String)
    (hfb : status ≠ 200 ∨ body = .parsed none)
    (hex : extractCookieSid cookies = some v) :
    (login s refreshMin now (.resp status body (some cookies))).1.session_id
      = some v ∧
    (login s refreshMin now (.resp status body (some cookies))).2.1 = true := by
  rcases hfb with hst | hb
  · simp [login, hst, hex]
  · subst hb
    by_cases hst : status = 200 <;> simp [login, hst, hex]

/-- Witness for the amended C5 at the concrete sentinel cookie. -/
theorem C5_cookie_value_stored_unconditionally_witness :
    (login initState 30 0
      (.resp 401 .parseError (some "sid=deleted; Path=/"))).1.session_id
        = some "deleted" ∧
    (login initState 30 0
      (.resp 401 .parseError (some "sid=deleted; Path=/"))).2.1 = true :=
  C5_cookie_value_stored_unconditionally initState 30 0 401 .parseError
    "sid=deleted; Path=/" "deleted" (Or.inl (by decide)) (by decide)

/-- C6: the embedded login is a total function (the source wraps its
whole body in a try/except, so no failure mode propagates an
exception), and it reports success exactly when the stored error is
cleared: every failure outcome records an error message in last_error,
and every successful login — also one following earlier failures —
leaves last_error empty. -/
theorem C6_login_failure_recorded (s : SessionState) (refreshMin now : Nat)
    (o : LoginOutcome) :
    (login s refreshMin now o).2.1 =
      (login s refreshMin now o).1.last_error.isNone := by
  rcases o with msg | ⟨status, body, sc⟩
  · simp [login]
  · by_cases hst : status = 200
    · cases body with
      | parseError => simp [login, hst]
      | parsed sid? =>
          cases sid? with
          | some sid => simp [login, hst]
          | none =>
              cases sc with
              | none => simp [login, hst]
              | some cookies =>
                  cases hex : extractCookieSid cookies with
                  | none => simp [login, hst, hex]
                  | some sid => simp [login, hst, hex]
    · cases sc with
      | none => simp [login, hst]
      | some cookies =>
          cases hex : extractCookieSid cookies with
          | none => simp [login, hst, hex]
          | some sid => simp [login, hst, hex]

/-- C8: invalidate is idempotent on the session state, and in
particular invalidating when no session exists leaves the store empty
and raises no error (the embedded function is total). -/
theorem C8_invalidate_idempotent (s : SessionState) :
    invalidate (invalidate s) = invalidate s ∧
    (invalidate s).session_id = none ∧
    (invalidate s).session_expiry = none ∧
    invalidate initState = initState := by
  simp [invalidate, initState]

/-- Helper: the loop body leaves a record with a missing or empty
domain untouched, and a missing timestamp acts as timestamp 0, so the
dict fold is unchanged by the corresponding normalisation of its
input. -/
theorem foldl_processQuery_normalize (qs : List QueryRecord)
    (acc : List BlockedEntry) :
    qs.foldl processQuery acc = (normalizeQueries qs).foldl processQuery acc := by
  induction qs generalizing acc with
  | nil => rfl
  | cons q rest ih =>
      by_cases hd : q.domain.getD "" = ""
      · have h1 : normalizeQueries (q :: rest) = normalizeQueries rest := by
          simp [normalizeQueries, hd]
        have h2 : processQuery acc q = acc := by
          simp [processQuery, hd]
        rw [List.foldl_cons, h2, h1, ih]
      · have h1 : normalizeQueries (q :: rest) =
            { q with timestamp := some (q.timestamp.getD 0) } ::
              normalizeQueries rest := by
          simp [normalizeQueries, hd]
        have h2 : processQuery acc
            { q with timestamp := some (q.timestamp.getD 0) } =
              processQuery acc q := rfl
        rw [h1, List.foldl_cons, List.foldl_cons, h2, ih]

/-- C10: the aggregation gives the same output when every record with a
missing or empty domain is removed from the input and every missing
timestamp is replaced by 0 — such records contribute no count, no
output entry and no timestamp update, and a missing timestamp acts as
timestamp 0. -/
theorem C10_empty_domain_skipped (qs : List QueryRecord) (limit : Nat) :
    get_blocked_queries qs limit =
      get_blocked_queries (normalizeQueries qs) limit := by
  unfold get_blocked_queries
  rw [foldl_processQuery_normalize]

/-- Helper: the descending-timestamp comparison is transitive. -/
theorem laterFirst_trans (a b c : BlockedEntry) (hab : laterFirst a b)
    (hbc : laterFirst b c) : laterFirst a c := by
  simp [laterFirst] at *
  omega

/-- Helper: the descending-timestamp comparison is total. -/
theorem laterFirst_total (a b : BlockedEntry) :
    laterFirst a b || laterFirst b a := by
  simp [laterFirst]
  omega

/-- Helper: the loop body preserves distinctness of the domains held in
the dict (it updates an existing entry in place or appends a domain not
yet present). -/
theorem processQuery_nodup_domains (acc : List BlockedEntry)
    (q : QueryRecord) (h : (acc.map BlockedEntry.domain).Nodup) :
    ((processQuery acc q).map BlockedEntry.domain).Nodup := by
  by_cases hd : q.domain.getD "" = ""
  · simpa [processQuery, hd]
  · by_cases hin : acc.any (fun e => e.domain = q.domain.getD "") = true
    · have hmap : (processQuery acc q).map BlockedEntry.domain =
          acc.map BlockedEntry.domain := by
        simp only [processQuery, hd, if_false, hin, if_true, List.map_map]
        apply List.map_congr_left
        intro e _
        by_cases he : e.domain = q.domain.getD "" <;>
          simp [he, bumpEntry, Function.comp]
      rwa [hmap]
    · have hmap : (processQuery acc q).map BlockedEntry.domain =
          acc.map BlockedEntry.domain ++ [q.domain.getD ""] := by
        simp [processQuery, hd, hin, bumpEntry]
      rw [hmap]
      have hnotin : q.domain.getD "" ∉ acc.map BlockedEntry.domain := by
        simp only [List.any_eq_true, not_exists, not_and,
          Bool.not_eq_true] at hin
        intro hmem
        obtain ⟨e, hme, hde⟩ := List.mem_map.mp hmem
        have := hin e hme
        simp [hde] at this
      simp [List.nodup_append, h, hnotin]

/-- Helper: the whole dict fold keeps domains distinct. -/
theorem foldl_processQuery_nodup (qs : List QueryRecord)
    (acc : List BlockedEntry) (h : (acc.map BlockedEntry.domain).Nodup) :
    ((qs.foldl processQuery acc).map BlockedEntry.domain).Nodup := by
  induction qs generalizing acc with
  | nil => exact h
  | cons q rest ih => exact ih _ (processQuery_nodup_domains acc q h)

/-- C7: on the example records of the spec the aggregation yields the
two expected entries in descending timestamp order; in general the
output is truncated to the configured limit, sorted by latest timestamp
descending, and contains each domain at most once. -/
theorem C7_blocked_aggregation :
    get_blocked_queries exampleQueries 50 =
      [⟨"a.com", 2, 200⟩, ⟨"b.com", 1, 150⟩] ∧
    (∀ qs limit,
      (get_blocked_queries qs limit).length ≤ limit ∧
      (get_blocked_queries qs limit).Pairwise
        (fun a b => b.latest_timestamp ≤ a.latest_timestamp) ∧
      ((get_blocked_queries qs limit).map BlockedEntry.domain).Nodup) := by
  constructor
  · have hfold : exampleQueries.foldl processQuery [] =
        [⟨"a.com", 2, 200⟩, ⟨"b.com", 1, 150⟩] := by decide
    have hsorted : ([⟨"a.com", 2, 200⟩, ⟨"b.com", 1, 150⟩] :
        List BlockedEntry).Pairwise (laterFirst · ·) := by
      simp [laterFirst]
    unfold get_blocked_queries
    rw [hfold, List.mergeSort_of_sorted hsorted]
    rfl
  · intro qs limit
    refine ⟨?_, ?_, ?_⟩
    · exact List.length_take_le limit _
    · have hs := List.sorted_mergeSort laterFirst_trans laterFirst_total
        (qs.foldl processQuery [])
      have ht : (get_blocked_queries qs limit).Pairwise (laterFirst · ·) :=
        hs.sublist (List.take_sublist _ _)
      exact ht.imp (fun hab => by simpa [laterFirst] using hab)
    · have hperm : List.Perm
          (((qs.foldl processQuery []).mergeSort laterFirst).map
            BlockedEntry.domain)
          ((qs.foldl processQuery []).map BlockedEntry.domain) :=
        (List.mergeSort_perm _ _).map _
      have hnodup := hperm.nodup_iff.mpr
        (foldl_processQuery_nodup qs [] (by simp))
      have hsub : List.Sublist
          ((get_blocked_queries qs limit).map BlockedEntry.domain)
          (((qs.foldl processQuery []).mergeSort laterFirst).map
            BlockedEntry.domain) :=
        (List.take_sublist _ _).map _
      exact hnodup.sublist hsub

/-- C9: a whitelist request whose domain field is missing or becomes
empty after whitespace stripping is rejected with the 400 validation
error, no upstream API call is made, and the session state is returned
unchanged. -/
theorem C9_empty_domain_rejected (f : Option String) (s : SessionState)
    (h : pyStrip (f.getD "") = "") :
    add_to_whitelist (some f) s = (.validationError, false, s) := by
  simp [add_to_whitelist, h]

/-- Witness for C9 at a whitespace-only domain value. -/
theorem C9_empty_domain_rejected_witness :
    add_to_whitelist (some (some "   ")) initState =
      (.validationError, false, initState) :=
  C9_empty_domain_rejected (some "   ") initState (by decide)

end PiHole
